import Mathlib

/-!
Verification of the Jentic MCP server's JSON-RPC dispatch and tool layer.

Shallow embedding of:
  * `mcp/tools.py` — the static tool registry (`get_all_tool_definitions`);
  * `mcp/transport/jsonrpc_handler.py` — `JSONRPCHandler.handle_request`
    and its `_handle_initialize` / `_handle_tools_list` / `_handle_tools_call`;
  * `mcp/adapters/mcp.py` — `MCPAdapter.execute`,
    `MCPAdapter.submit_feedback` and
    `get_execute_tool_failure_suggested_next_actions`.

JSON values are modelled by the inductive `JValue`.  Python exceptions are
modelled with `Except String` (the exception's `str(e)` text as the error).
Remote effects (the jentic backend calls and the feedback HTTP POST) are
modelled by oracle functions passed in explicitly, and every adapter entry
point also returns the list of remote calls it performed, so that claims
about "no network call is made" and "called exactly once" are expressible.
Logging statements (and the evaluation of their f-string arguments) are
elided throughout.
-/

/-- A JSON value, as handled by the Python code (dicts keep insertion order,
so objects are association lists). -/
inductive JValue where
  | null : JValue
  | bool : Bool → JValue
  | num  : Int → JValue
  | str  : String → JValue
  | arr  : List JValue → JValue
  | obj  : List (String × JValue) → JValue

/-- Key lookup on a JSON object (`none` on a non-object or an absent key). -/
def JValue.lookup : JValue → String → Option JValue
  | .obj fs, k => fs.lookup k
  | _, _ => none

/-- Python truthiness (`bool(x)`) of a JSON value. -/
def JValue.isTruthy : JValue → Bool
  | .null => false
  | .bool b => b
  | .num n => n != 0
  | .str s => s != ""
  | .arr xs => !xs.isEmpty
  | .obj fs => !fs.isEmpty

/-- Python `isinstance(x, dict)` for a JSON value. -/
def JValue.isDict : JValue → Bool
  | .obj _ => true
  | _ => false

/-- Python hashability of a JSON value: lists and dicts are unhashable, so
using one as a dict key — also in a membership test — raises
`TypeError: unhashable type`. -/
def JValue.isHashable : JValue → Bool
  | .arr _ => false
  | .obj _ => false
  | _ => true

/-- The Python type name of a JSON value (for `AttributeError` texts). -/
def JValue.pyTypeName : JValue → String
  | .null => "NoneType"
  | .bool _ => "bool"
  | .num _ => "int"
  | .str _ => "str"
  | .arr _ => "list"
  | .obj _ => "dict"

mutual

/-- Python `repr` of a JSON value (containers render their elements with `repr`). -/
def JValue.pyRepr : JValue → String
  | .null => "None"
  | .bool true => "True"
  | .bool false => "False"
  | .num n => toString n
  | .str s => "\x27" ++ s ++ "\x27"
  | .arr xs => "[" ++ pyReprList xs ++ "]"
  | .obj fs => "\x7b" ++ pyReprFields fs ++ "\x7d"

/-- Comma-separated `repr` of list elements. -/
def pyReprList : List JValue → String
  | [] => ""
  | [x] => x.pyRepr
  | x :: xs => x.pyRepr ++ ", " ++ pyReprList xs

/-- Comma-separated `repr` of dict entries. -/
def pyReprFields : List (String × JValue) → String
  | [] => ""
  | [(k, v)] => "\x27" ++ k ++ "\x27: " ++ v.pyRepr
  | (k, v) :: fs => "\x27" ++ k ++ "\x27: " ++ v.pyRepr ++ ", " ++ pyReprFields fs

end

/-- Python `str` of a JSON value, as an f-string renders it. -/
def JValue.pyStr : JValue → String
  | .str s => s
  | v => v.pyRepr

mutual

/-- The `json.dumps` serialisation of a JSON value (whitespace/indentation and
string escaping are immaterial to every property proved here and are elided). -/
def JValue.dumps : JValue → String
  | .null => "null"
  | .bool true => "true"
  | .bool false => "false"
  | .num n => toString n
  | .str s => "\"" ++ s ++ "\""
  | .arr xs => "[" ++ dumpsList xs ++ "]"
  | .obj fs => "\x7b" ++ dumpsFields fs ++ "\x7d"

/-- Comma-separated serialisation of array elements. -/
def dumpsList : List JValue → String
  | [] => ""
  | [x] => x.dumps
  | x :: xs => x.dumps ++ ", " ++ dumpsList xs

/-- Comma-separated serialisation of object entries. -/
def dumpsFields : List (String × JValue) → String
  | [] => ""
  | [(k, v)] => "\"" ++ k ++ "\": " ++ v.dumps
  | (k, v) :: fs => "\"" ++ k ++ "\": " ++ v.dumps ++ ", " ++ dumpsFields fs

end

/-- Python dict assignment `d[k] = v` on an association list: replace the
first binding of `k` in place, else append a new binding at the end. -/
def setPair : List (String × JValue) → String → JValue → List (String × JValue)
  | [], k, v => [(k, v)]
  | (k0, w) :: rest, k, v =>
      if k0 = k then (k, v) :: rest else (k0, w) :: setPair rest k v

/-- Python dict assignment `d[k] = v` on a JSON object (identity on non-objects,
which cannot occur on the guarded paths that use it). -/
def JValue.setKey : JValue → String → JValue → JValue
  | .obj fs, k, v => .obj (setPair fs k v)
  | other, _, _ => other

/-- Tool definition `SEARCH_API_CAPABILITIES_TOOL` from `mcp/tools.py`. -/
def SEARCH_API_CAPABILITIES_TOOL : JValue := .obj [
  ("name", .str "search_apis"),
  ("description", .str "Search for available actions or information based on what the user wants to do (e.g., 'find Discord servers', 'send a message'). Use this first to understand what's possible."),
  ("parameters", .obj [
    ("type", .str "object"),
    ("properties", .obj [
      ("capability_description", .obj [
        ("type", .str "string"),
        ("description", .str "Natural language description of the action needed (e.g., 'send emails', 'weather forecasting', 'natural language processing')")]),
      ("keywords", .obj [
        ("type", .str "array"),
        ("description", .str "Optional list of specific keywords to help narrow down the search"),
        ("items", .obj [("type", .str "string")])]),
      ("max_results", .obj [
        ("type", .str "integer"),
        ("description", .str "Maximum number of actions to return"),
        ("default", .num 5)])]),
    ("required", .arr [.str "capability_description"])])]

/-- Tool definition `LOAD_CONFIG_TOOL` from `mcp/tools.py`. -/
def LOAD_CONFIG_TOOL : JValue := .obj [
  ("name", .str "load_execution_info"),
  ("description", .str ("Get more details about a specific action (like what information it needs from the user) before confirming you want to run it. " ++ "Usually used if the action requires specific inputs. " ++ "Coding Agents: To provide tools to an LLM that you have selected at runtime, use this tool to retrieve the necessary information and save it to 'jentic.json' at the root of your project.")),
  ("parameters", .obj [
    ("type", .str "object"),
    ("properties", .obj [
      ("workflow_uuids", .obj [
        ("type", .str "array"),
        ("items", .obj [("type", .str "string")]),
        ("description", .str "The UUIDs of the workflows to include in the configuration files.")]),
      ("operation_uuids", .obj [
        ("type", .str "array"),
        ("items", .obj [("type", .str "string")]),
        ("description", .str "The UUIDs of the operations to include in the configuration files.")])]),
    ("required", .arr [.str "workflow_uuids", .str "operation_uuids"])])]

/-- Tool definition `EXECUTE_TOOL` from `mcp/tools.py`. -/
def EXECUTE_TOOL : JValue := .obj [
  ("name", .str "execute"),
  ("description", .str "Perform the chosen action for the user using the provided details (if any are needed)."),
  ("parameters", .obj [
    ("type", .str "object"),
    ("properties", .obj [
      ("execution_type", .obj [
        ("type", .str "string"),
        ("enum", .arr [.str "operation", .str "workflow"]),
        ("description", .str "Specify whether to execute an 'operation' or a 'workflow'.")]),
      ("uuid", .obj [
        ("type", .str "string"),
        ("description", .str "The UUID of the operation or workflow to execute.")]),
      ("inputs", .obj [
        ("type", .str "object"),
        ("description", .str "The input parameters required by the operation or workflow."),
        ("additionalProperties", .bool true)])]),
    ("required", .arr [.str "execution_type", .str "uuid", .str "inputs"])])]

/-- The function `get_all_tool_definitions` from `mcp/tools.py`: the static
tool registry consulted by `tools/list`. -/
def get_all_tool_definitions : List JValue :=
  [SEARCH_API_CAPABILITIES_TOOL, LOAD_CONFIG_TOOL, EXECUTE_TOOL]

/-- The four adapter coroutines `JSONRPCHandler.handle_request` can dispatch a
`tools/call` to, abstracted as oracles (argument object in, either a result
value or a raised exception's text out). -/
structure AdapterCalls where
  search_api_capabilities : JValue → Except String JValue
  generate_runtime_config : JValue → Except String JValue
  execute : JValue → Except String JValue
  submit_feedback : JValue → Except String JValue

/-- A JSON-RPC error response object, with the field order the handler uses. -/
def errorResponse (requestId : JValue) (code : Int) (message : String) : JValue :=
  .obj [("jsonrpc", .str "2.0"), ("id", requestId),
        ("error", .obj [("code", .num code), ("message", .str message)])]

/-- A JSON-RPC success response object, with the field order the handler uses. -/
def resultResponse (requestId result : JValue) : JValue :=
  .obj [("jsonrpc", .str "2.0"), ("id", requestId), ("result", result)]

/-- The `result` object built by `JSONRPCHandler._handle_initialize`. -/
def initializeResult (serverVersion : String) (protocolVersion : JValue) : JValue :=
  .obj [("protocolVersion", protocolVersion),
        ("capabilities", .obj [("tools", .obj [])]),
        ("serverInfo", .obj [("name", .str "jentic"), ("version", .str serverVersion)])]

/-- `JSONRPCHandler._handle_initialize`.  Both `params.get` calls need `params`
to be a dict (otherwise Python raises `AttributeError`); `clientInfo` is read
only for logging, which is elided. -/
def _handle_initialize (serverVersion : String) (params requestId : JValue) :
    Except String JValue :=
  match params with
  | .obj fs =>
      let protocol_version := (fs.lookup "protocolVersion").getD (.str "2024-11-05")
      .ok (resultResponse requestId (initializeResult serverVersion protocol_version))
  | other => .error ("\x27" ++ other.pyTypeName ++ "\x27 object has no attribute \x27get\x27")

/-- The reshaping `_handle_tools_list` applies to one registry entry:
`(name, description, inputSchema := (type := object, properties, required))`.
The static registry always carries the indexed keys; `required` uses
`.get` with default `[]` as in the source. -/
def reshapeTool (tool : JValue) : JValue :=
  .obj [
    ("name", (tool.lookup "name").getD .null),
    ("description", (tool.lookup "description").getD .null),
    ("inputSchema", .obj [
      ("type", .str "object"),
      ("properties", (((tool.lookup "parameters").getD .null).lookup "properties").getD .null),
      ("required", (((tool.lookup "parameters").getD .null).lookup "required").getD (.arr []))])]

/-- `JSONRPCHandler._handle_tools_list`: reshape every registry entry and wrap
the list in a JSON-RPC result (it never reads `params` and cannot raise). -/
def _handle_tools_list (params requestId : JValue) : JValue :=
  resultResponse requestId
    (.obj [("tools", .arr (get_all_tool_definitions.map reshapeTool))])

/-- The `tool_handlers` mapping of `JSONRPCHandler._handle_tools_call`: tool
name to adapter coroutine, `none` on every other hashable value.  Only
hashable names reach this lookup: for a list- or dict-valued name the
membership test itself raises `TypeError`, modelled in
`_handle_tools_call` before this dict is consulted. -/
def toolHandlers (a : AdapterCalls) : JValue → Option (JValue → Except String JValue)
  | .str "search_apis" => some a.search_api_capabilities
  | .str "load_execution_info" => some a.generate_runtime_config
  | .str "execute" => some a.execute
  | .str "submit_feedback" => some a.submit_feedback
  | _ => none

/-- Result formatting in `_handle_tools_call`: unwrap a dict result's
`result` key when present, then serialise into one MCP text content block. -/
def toolCallContent (result : JValue) : JValue :=
  let actual_result :=
    match result with
    | .obj fs =>
        match fs.lookup "result" with
        | some r => r
        | none => .obj fs
    | other => other
  .obj [("content", .arr [.obj [("type", .str "text"), ("text", .str actual_result.dumps)]])]

/-- `JSONRPCHandler._handle_tools_call`.  Two raising paths sit outside this
method's own `try` and propagate to `handle_request`'s `except`: the two
`params.get` calls need `params` to be a dict (else `AttributeError`), and
the membership test `tool_name not in tool_handlers` hashes the name, so a
list- or dict-valued name raises `TypeError: unhashable type`.  Everything
past the lookup is inside the `try`, so an exception raised by the tool
handler becomes a `-32603` "Tool execution error" here. -/
def _handle_tools_call (a : AdapterCalls) (params requestId : JValue) :
    Except String JValue :=
  match params with
  | .obj fs =>
      let tool_name := (fs.lookup "name").getD .null
      let arguments := (fs.lookup "arguments").getD (.obj [])
      match tool_name with
      | .arr _ => .error ("unhashable type: \x27list\x27")
      | .obj _ => .error ("unhashable type: \x27dict\x27")
      | _ =>
        .ok (match toolHandlers a tool_name with
          | none =>
              errorResponse requestId (-32601) ("Tool not found: " ++ tool_name.pyStr)
          | some handler =>
              match handler arguments with
              | .ok result => resultResponse requestId (toolCallContent result)
              | .error e =>
                  errorResponse requestId (-32603) ("Tool execution error: " ++ e))
  | other => .error ("\x27" ++ other.pyTypeName ++ "\x27 object has no attribute \x27get\x27")

/-- The method dispatch inside `handle_request`'s `try` block, in source
order.  `.ok none` is the intentional no-response case; `.error e` is an
exception escaping to the enclosing `except`. -/
def dispatch (a : AdapterCalls) (serverVersion : String)
    (method params requestId : JValue) : Except String (Option JValue) :=
  match method with
  | .str "initialize" =>
      (match _handle_initialize serverVersion params requestId with
       | .ok r => .ok (some r)
       | .error e => .error e)
  | .str "notifications/initialized" => .ok none
  | .str "tools/list" => .ok (some ( _handle_tools_list params requestId))
  | .str "tools/call" =>
      (match _handle_tools_call a params requestId with
       | .ok r => .ok (some r)
       | .error e => .error e)
  | .str "ping" => .ok (some (resultResponse requestId (.obj [("pong", .bool true)])))
  | other => .ok (some (errorResponse requestId (-32601) ("Method not found: " ++ other.pyStr)))

/-- `JSONRPCHandler.handle_request`: extract `method` / `params` / `id` from
the request dict, dispatch, and convert any escaping exception into a
`-32603` "Internal error" response.  `none` models Python's `return None`. -/
def handle_request (a : AdapterCalls) (serverVersion : String)
    (data : List (String × JValue)) : Option JValue :=
  let method := (data.lookup "method").getD .null
  let params := (data.lookup "params").getD (.obj [])
  let requestId := (data.lookup "id").getD .null
  match dispatch a serverVersion method params requestId with
  | .ok r => r
  | .error e => some (errorResponse requestId (-32603) ("Internal error: " ++ e))

/-- One remote side effect performed by the `MCPAdapter`: a backend operation
execution, a backend workflow execution, or an HTTP POST. -/
inductive RemoteCall where
  | execOperation : JValue → JValue → RemoteCall
  | execWorkflow : JValue → JValue → RemoteCall
  | httpPost : String → JValue → RemoteCall

/-- Modelled from the spec: the result object of the remote workflow runner
(`execute(id, inputs) → (success: bool, output: any, error: optional string)`).
The `WorkflowResult` dataclass itself ships with the jentic runtime package
and is not in this repository; `MCPAdapter.execute` only reads its `success`
and `error` attributes and serialises the rest with `dataclasses.asdict`. -/
structure WorkflowResult where
  success : Bool
  output : JValue
  error : Option String

/-- `dataclasses.asdict` applied to a `WorkflowResult`. -/
def WorkflowResult.asdict (r : WorkflowResult) : JValue :=
  .obj [("success", .bool r.success), ("output", r.output),
        ("error", match r.error with | some e => .str e | none => .null)]

/-- The remote jentic backend as seen by `MCPAdapter.execute`
(`self.jentic.execute_operation` / `self.jentic.execute_workflow`), as an
oracle: a result or a raised exception's text. -/
structure JenticBackend where
  execute_operation : JValue → JValue → Except String JValue
  execute_workflow : JValue → JValue → Except String WorkflowResult

/-- `MCPAdapter.get_execute_tool_failure_suggested_next_actions`: the static
recovery-hint list pointing at the `submit_feedback` tool. -/
def get_execute_tool_failure_suggested_next_actions : JValue :=
  .arr [.obj [
    ("tool_name", .str "submit_feedback"),
    ("description", .str ("Ask the user for permission to submit feedback, which includes reporting details of the error to Jentic for analysis." ++ "Before calling the submit_feedback tool, always show the user the full feedback content that will be sent." ++ "Ensure that NO SENSITIVE information (e.g., API keys, access tokens) is present in the feedback. If such information is detected in the error message, REMOVE it before proceeding." ++ "Include the error message JSON from the execute tool call response in the 'error' field of the submit_feedback tool call â€” only after confirming it contains NO SENSITIVE DATA, If such information is detected in the error message, REMOVE it before proceeding." ++ "Prompt the user to optionally provide: " ++ "Their email address (for follow-up once Jentic reviews the issue) and " ++ "any additional comments they wish to include in the feedback."))]]

/-- Python membership test `execution_type in ("operation", "workflow")`
(with the list written `["operation", "workflow"]` in the source). -/
def isKnownExecutionType : JValue → Bool
  | .str "operation" => true
  | .str "workflow" => true
  | _ => false

/-- The local validation failure payloads of `MCPAdapter.execute`. -/
def invalidExecutionTypePayload : JValue :=
  .obj [("result", .obj [("success", .bool false),
        ("message", .str "Invalid execution_type. Must be 'operation' or 'workflow'.")])]

/-- The missing-uuid validation failure payload of `MCPAdapter.execute`. -/
def missingUuidPayload : JValue :=
  .obj [("result", .obj [("success", .bool false),
        ("message", .str "Missing required parameter: uuid")])]

/-- The non-dict-inputs validation failure payload of `MCPAdapter.execute`. -/
def invalidInputsPayload : JValue :=
  .obj [("result", .obj [("success", .bool false),
        ("message", .str "Invalid inputs type. Must be a dictionary.")])]

/-- The payload `MCPAdapter.execute` returns when the remote call raises. -/
def executeExceptionPayload (e : String) : JValue :=
  .obj [("result", .obj [
    ("success", .bool false),
    ("message", .str ("Error during execution: " ++ e)),
    ("suggested_next_actions", get_execute_tool_failure_suggested_next_actions)])]

/-- The payload `MCPAdapter.execute` returns when the workflow runner reports
`success == false` (Python `result.error or "Workflow execution failed."`). -/
def workflowFailurePayload (r : WorkflowResult) : JValue :=
  .obj [("result", .obj [
    ("success", .bool false),
    ("message", .str (match r.error with
      | some e => if e == "" then "Workflow execution failed." else e
      | none => "Workflow execution failed.")),
    ("output", r.asdict),
    ("suggested_next_actions", get_execute_tool_failure_suggested_next_actions)])]

/-- `MCPAdapter.execute` from `mcp/adapters/mcp.py`, parameterised by the
remote backend oracle.  Returns the MCP payload together with the list of
remote calls performed, or the text of an exception the method itself raises
(only possible when `params` is not a dict, from `params.get`).  The final
wildcard arm models Python falling off the `if`/`elif` chain with `None`,
unreachable past the `execution_type` validation. -/
def MCPAdapter.execute (jentic : JenticBackend) (params : JValue) :
    Except String (JValue × List RemoteCall) :=
  match params with
  | .obj pfs =>
    let execution_type := (pfs.lookup "execution_type").getD .null
    let uuid := (pfs.lookup "uuid").getD .null
    let inputs := (pfs.lookup "inputs").getD (.obj [])
    if !execution_type.isTruthy || !isKnownExecutionType execution_type then
      .ok (invalidExecutionTypePayload, [])
    else if !uuid.isTruthy then
      .ok (missingUuidPayload, [])
    else if !inputs.isDict then
      .ok (invalidInputsPayload, [])
    else
      match execution_type with
      | .str "operation" =>
          (match jentic.execute_operation uuid inputs with
           | .ok result =>
               .ok (.obj [("result", .obj [("success", .bool true), ("output", result)])],
                    [.execOperation uuid inputs])
           | .error e => .ok (executeExceptionPayload e, [.execOperation uuid inputs]))
      | .str "workflow" =>
          (match jentic.execute_workflow uuid inputs with
           | .ok result =>
               if !result.success then
                 .ok (workflowFailurePayload result, [.execWorkflow uuid inputs])
               else
                 .ok (.obj [("result", .obj [("success", .bool true),
                       ("output", result.asdict)])],
                      [.execWorkflow uuid inputs])
           | .error e => .ok (executeExceptionPayload e, [.execWorkflow uuid inputs]))
      | _ => .ok (.null, [])
  | other => .error ("\x27" ++ other.pyTypeName ++ "\x27 object has no attribute \x27get\x27")

/-- The outcome of `httpx.AsyncClient.post` as `MCPAdapter.submit_feedback`
observes it: a response with a status code and body text, a raised
`httpx.RequestError`, or any other raised exception. -/
inductive PostOutcome where
  | response : Nat → String → PostOutcome
  | requestError : String → PostOutcome
  | otherError : String → PostOutcome

/-- The two environment variables `MCPAdapter.submit_feedback` reads
(`none` models an unset variable). -/
structure FeedbackEnv where
  jentic_uuid : Option String
  feedback_endpoint_url : Option String

/-- The hard-coded default `FEEDBACK_ENDPOINT_URL` in `submit_feedback`. -/
def defaultFeedbackUrl : String :=
  "https://xze2r4egy7.execute-api.eu-west-1.amazonaws.com/dev/workflow-feedback"

/-- The validation failure payload of `MCPAdapter.submit_feedback`. -/
def missingFeedbackDataPayload : JValue :=
  .obj [("result", .obj [("success", .bool false),
        ("message", .str "Missing or invalid 'feedback_data' parameter.")])]

/-- The success payload of `MCPAdapter.submit_feedback`. -/
def feedbackSuccessPayload : JValue :=
  .obj [("result", .obj [("success", .bool true),
        ("message", .str "Feedback submitted successfully. The Jentic team will look into it and get back to you at the submitted email if provided.")])]

/-- A `success:false` feedback payload with the given message. -/
def feedbackFailurePayload (message : String) : JValue :=
  .obj [("result", .obj [("success", .bool false), ("message", .str message)])]

/-- `MCPAdapter.submit_feedback` from `mcp/adapters/mcp.py`, parameterised by
the environment and the HTTP POST oracle.  `httpx` raises `HTTPStatusError`
from `raise_for_status()` exactly on a non-2xx status.  Returns the MCP
payload together with the POSTs performed; `.error` (from `params.get` on a
non-dict) models an exception escaping the method. -/
def MCPAdapter.submit_feedback (env : FeedbackEnv)
    (post : String → JValue → PostOutcome) (params : JValue) :
    Except String (JValue × List RemoteCall) :=
  match params with
  | .obj pfs =>
    let feedback_data := (pfs.lookup "feedback_data").getD .null
    if !feedback_data.isTruthy || !feedback_data.isDict then
      .ok (missingFeedbackDataPayload, [])
    else
      let feedback_data :=
        match env.jentic_uuid with
        | some u => if u != "" then feedback_data.setKey "jentic_uuid" (.str u)
                    else feedback_data
        | none => feedback_data
      let feedback_endpoint_url := env.feedback_endpoint_url.getD defaultFeedbackUrl
      match post feedback_endpoint_url feedback_data with
      | .response status body =>
          if 200 ≤ status && status ≤ 299 then
            .ok (feedbackSuccessPayload, [.httpPost feedback_endpoint_url feedback_data])
          else
            .ok (feedbackFailurePayload
                   ("Failed to submit feedback, server returned error: "
                    ++ toString status ++ " - " ++ body),
                 [.httpPost feedback_endpoint_url feedback_data])
      | .requestError e =>
          .ok (feedbackFailurePayload
                 ("Failed to submit feedback due to network/request issue: " ++ e),
               [.httpPost feedback_endpoint_url feedback_data])
      | .otherError e =>
          .ok (feedbackFailurePayload
                 ("An unexpected error occurred while submitting feedback: " ++ e),
               [.httpPost feedback_endpoint_url feedback_data])
  | other => .error ("\x27" ++ other.pyTypeName ++ "\x27 object has no attribute \x27get\x27")

/-- A trivial adapter instance (used only to instantiate handler-level
statements at concrete inputs; `tools/list`, `ping`, `initialize` and the
error paths never invoke it). -/
def nullAdapter : AdapterCalls where
  search_api_capabilities := fun _ => .ok .null
  generate_runtime_config := fun _ => .ok .null
  execute := fun _ => .ok .null
  submit_feedback := fun _ => .ok .null

/-- A backend oracle whose calls all succeed trivially (used to instantiate
adapter-level statements at concrete inputs). -/
def idleBackend : JenticBackend where
  execute_operation := fun _ _ => .ok .null
  execute_workflow := fun _ _ => .ok (WorkflowResult.mk true .null none)

/-- Field access inside a tool payload's `result` object. -/
def payloadField (payload : JValue) (k : String) : Option JValue :=
  ((payload.lookup "result").getD .null).lookup k

/-- The listed tool names, in registry order. -/
def listedToolNames : List (Option JValue) :=
  get_all_tool_definitions.map (fun t => t.lookup "name")

/-- The `tools` array of a `tools/list` JSON-RPC response (empty on any other
shape, which does not occur). -/
def toolsOfResponse (r : Option JValue) : List JValue :=
  match r with
  | some resp =>
      (match resp.lookup "result" with
       | some res =>
           (match res.lookup "tools" with
            | some (.arr ts) => ts
            | _ => [])
       | _ => [])
  | none => []

/-- C3 counterexample: the `tools/list` response for a concrete request
carries 3 tools, not 4, and `submit_feedback` is not among their names. -/
theorem claim_C3_counterexample :
    (toolsOfResponse (handle_request nullAdapter "0.1.0"
        [("method", .str "tools/list"), ("id", .num 1)])).length = 3
    ∧ ((toolsOfResponse (handle_request nullAdapter "0.1.0"
        [("method", .str "tools/list"), ("id", .num 1)])).length = 4 → False)
    ∧ (toolsOfResponse (handle_request nullAdapter "0.1.0"
        [("method", .str "tools/list"), ("id", .num 1)])).map (fun t => t.lookup "name")
      = [some (.str "search_apis"), some (.str "load_execution_info"), some (.str "execute")] :=
  ⟨rfl, fun h => absurd h (by decide), rfl⟩

/-- C3 amended: every `tools/list` request returns exactly 3 tools —
search_apis, load_execution_info and execute, with submit_feedback absent —
each reshaped to `(name, description, inputSchema := (type := object,
properties, required))` with non-empty name and description. -/
theorem claim_C3_amended (params requestId : JValue) :
    _handle_tools_list params requestId
      = resultResponse requestId
          (.obj [("tools", .arr (get_all_tool_definitions.map reshapeTool))])
    ∧ (get_all_tool_definitions.map reshapeTool).length = 3
    ∧ (get_all_tool_definitions.map reshapeTool).map (fun t => t.lookup "name")
      = [some (.str "search_apis"), some (.str "load_execution_info"), some (.str "execute")]
    ∧ ((get_all_tool_definitions.map reshapeTool).all fun t =>
        (match t.lookup "name" with | some (.str s) => s != "" | _ => false)
        && (match t.lookup "description" with | some (.str s) => s != "" | _ => false)
        && (match t.lookup "inputSchema" with
            | some (.obj sfs) =>
                (match sfs.lookup "type" with | some (.str "object") => true | _ => false)
                && (sfs.lookup "properties").isSome
                && (sfs.lookup "required").isSome
            | _ => false)) = true :=
  ⟨rfl, rfl, rfl, rfl⟩

/-- C10: every tool name listed by `tools/list` (search_apis,
load_execution_info, execute) is dispatchable through `tools/call`, and
`submit_feedback` is dispatchable as well although it appears in no
`tools/list` response — the dispatchable set strictly contains the listed
set. -/
theorem claim_C10 (a : AdapterCalls) :
    (listedToolNames.all fun n =>
        match n with
        | some nm => (toolHandlers a nm).isSome
        | none => false) = true
    ∧ (toolHandlers a (.str "submit_feedback")).isSome = true
    ∧ listedToolNames
      = [some (.str "search_apis"), some (.str "load_execution_info"), some (.str "execute")]
    ∧ (listedToolNames.all fun n =>
        !(match n with | some (.str "submit_feedback") => true | _ => false)) = true :=
  ⟨rfl, rfl, rfl, rfl⟩

/-- Helper: a method equal to none of the five known ones falls through to
the "Method not found" arm of `dispatch`. -/
theorem dispatch_unknown_method (a : AdapterCalls) (v : String) (params requestId m : JValue)
    (h1 : m ≠ .str "initialize") (h2 : m ≠ .str "notifications/initialized")
    (h3 : m ≠ .str "tools/list") (h4 : m ≠ .str "tools/call") (h5 : m ≠ .str "ping") :
    dispatch a v m params requestId
      = .ok (some (errorResponse requestId (-32601) ("Method not found: " ++ m.pyStr))) := by
  unfold dispatch
  split
  · exact absurd rfl h1
  · exact absurd rfl h2
  · exact absurd rfl h3
  · exact absurd rfl h4
  · exact absurd rfl h5
  · rfl

/-- Helper: when `_handle_initialize` returns, its value is a JSON-RPC result
response for the request id. -/
theorem init_ok_shape (v : String) (p rid r : JValue)
    (h : _handle_initialize v p rid = .ok r) : ∃ res, r = resultResponse rid res := by
  cases p with
  | obj fs => exact ⟨_, (Except.ok.inj h).symm⟩
  | null => cases h
  | bool b => cases h
  | num n => cases h
  | str s => cases h
  | arr xs => cases h

/-- Helper: when `_handle_tools_call` returns, its value is a JSON-RPC result
or error response for the request id. -/
theorem tools_call_ok_shape (a : AdapterCalls) (p rid r : JValue)
    (h : _handle_tools_call a p rid = .ok r) :
    (∃ res, r = resultResponse rid res) ∨ (∃ c msg, r = errorResponse rid c msg) := by
  cases p with
  | obj fs =>
      simp only [_handle_tools_call] at h
      rcases hn : (fs.lookup "name").getD .null with _ | b | n | s | xs | gs <;>
        rw [hn] at h <;> dsimp only at h
      case arr => cases h
      case obj => cases h
      all_goals
        (split at h
         · exact Or.inr ⟨_, _, (Except.ok.inj h).symm⟩
         · split at h
           · exact Or.inl ⟨_, (Except.ok.inj h).symm⟩
           · exact Or.inr ⟨_, _, (Except.ok.inj h).symm⟩)
  | null => cases h
  | bool b => cases h
  | num n => cases h
  | str s => cases h
  | arr xs => cases h

/-- Helper: every response produced inside `dispatch` is a JSON-RPC result or
error response for the request id. -/
theorem dispatch_ok_some_shape (a : AdapterCalls) (v : String) (m p rid r : JValue)
    (h : dispatch a v m p rid = .ok (some r)) :
    (∃ res, r = resultResponse rid res) ∨ (∃ c msg, r = errorResponse rid c msg) := by
  unfold dispatch at h
  split at h
  · rcases hi : _handle_initialize v p rid with e | r0 <;> rw [hi] at h <;> dsimp only at h
    · cases h
    · obtain rfl : r0 = r := Option.some.inj (Except.ok.inj h)
      exact Or.inl (init_ok_shape v p rid _ hi)
  · exact Option.noConfusion (Except.ok.inj h)
  · obtain rfl := Option.some.inj (Except.ok.inj h)
    exact Or.inl ⟨_, rfl⟩
  · rcases hc : _handle_tools_call a p rid with e | r0 <;> rw [hc] at h <;> dsimp only at h
    · cases h
    · obtain rfl : r0 = r := Option.some.inj (Except.ok.inj h)
      exact tools_call_ok_shape a p rid _ hc
  · obtain rfl := Option.some.inj (Except.ok.inj h)
    exact Or.inl ⟨_, rfl⟩
  · obtain rfl := Option.some.inj (Except.ok.inj h)
    exact Or.inr ⟨_, _, rfl⟩

/-- Helper: `dispatch` produces the no-response outcome exactly for the
"notifications/initialized" method. -/
theorem dispatch_none_iff (a : AdapterCalls) (v : String) (m p rid : JValue) :
    dispatch a v m p rid = .ok none ↔ m = .str "notifications/initialized" := by
  constructor
  · intro h
    unfold dispatch at h
    split at h
    · rcases hi : _handle_initialize v p rid with e | r0 <;> rw [hi] at h <;> dsimp only at h
      · cases h
      · exact Option.noConfusion (Except.ok.inj h)
    · rfl
    · exact Option.noConfusion (Except.ok.inj h)
    · rcases hc : _handle_tools_call a p rid with e | r0 <;> rw [hc] at h <;> dsimp only at h
      · cases h
      · exact Option.noConfusion (Except.ok.inj h)
    · exact Option.noConfusion (Except.ok.inj h)
    · exact Option.noConfusion (Except.ok.inj h)
  · intro h
    subst h
    rfl

/-- Helper: field lookups on a result response. -/
theorem resultResponse_lookups (rid res : JValue) :
    (resultResponse rid res).lookup "id" = some rid
    ∧ (resultResponse rid res).lookup "result" = some res
    ∧ (resultResponse rid res).lookup "error" = none := ⟨rfl, rfl, rfl⟩

/-- Helper: field lookups on an error response. -/
theorem errorResponse_lookups (rid : JValue) (c : Int) (msg : String) :
    (errorResponse rid c msg).lookup "id" = some rid
    ∧ (errorResponse rid c msg).lookup "error"
        = some (.obj [("code", .num c), ("message", .str msg)])
    ∧ (errorResponse rid c msg).lookup "result" = none := ⟨rfl, rfl, rfl⟩

/-- C1: for every inbound JSON-RPC request, `handle_request` returns no
response exactly when the method is "notifications/initialized"; every other
request gets exactly one response carrying the request's id, which is either
a result or an error object; and an exception escaping the dispatch is
converted into error code -32603 whose message carries the exception's
text. -/
theorem claim_C1 (a : AdapterCalls) (v : String) (data : List (String × JValue)) :
    (handle_request a v data = none ↔
      (data.lookup "method").getD .null = .str "notifications/initialized")
    ∧ (∀ r, handle_request a v data = some r →
        r.lookup "id" = some ((data.lookup "id").getD .null)
        ∧ ((∃ res, r.lookup "result" = some res ∧ r.lookup "error" = none)
           ∨ (∃ c msg,
                r.lookup "error" = some (.obj [("code", .num c), ("message", .str msg)])
                ∧ r.lookup "result" = none)))
    ∧ (∀ e, dispatch a v ((data.lookup "method").getD .null)
          ((data.lookup "params").getD (.obj [])) ((data.lookup "id").getD .null)
          = .error e →
        handle_request a v data
          = some (errorResponse ((data.lookup "id").getD .null) (-32603)
                  ("Internal error: " ++ e))) := by
  refine ⟨?_, ?_, ?_⟩
  · simp only [handle_request]
    rcases hd : dispatch a v ((data.lookup "method").getD .null)
        ((data.lookup "params").getD (.obj [])) ((data.lookup "id").getD .null) with e | r
    · dsimp only
      constructor
      · intro hc
        exact Option.noConfusion hc
      · intro hm
        rw [(dispatch_none_iff a v _ _ _).2 hm] at hd
        cases hd
    · dsimp only
      rcases r with _ | r0
      · simp only [dispatch_none_iff a v _ _ _] at hd
        exact ⟨fun _ => hd, fun _ => rfl⟩
      · constructor
        · intro hc
          exact Option.noConfusion hc
        · intro hm
          rw [(dispatch_none_iff a v _ _ _).2 hm] at hd
          exact Option.noConfusion (Except.ok.inj hd)
  · intro r hr
    simp only [handle_request] at hr
    rcases hd : dispatch a v ((data.lookup "method").getD .null)
        ((data.lookup "params").getD (.obj [])) ((data.lookup "id").getD .null) with e | r1
    · rw [hd] at hr
      dsimp only at hr
      obtain rfl := Option.some.inj hr
      exact ⟨(errorResponse_lookups _ _ _).1,
        Or.inr ⟨_, _, (errorResponse_lookups _ _ _).2.1, (errorResponse_lookups _ _ _).2.2⟩⟩
    · rw [hd] at hr
      dsimp only at hr
      subst hr
      rcases dispatch_ok_some_shape a v _ _ _ r hd with ⟨res, rfl⟩ | ⟨c, msg, rfl⟩
      · exact ⟨(resultResponse_lookups _ _).1,
          Or.inl ⟨res, (resultResponse_lookups _ _).2.1, (resultResponse_lookups _ _).2.2⟩⟩
      · exact ⟨(errorResponse_lookups _ _ _).1,
          Or.inr ⟨c, msg, (errorResponse_lookups _ _ _).2.1, (errorResponse_lookups _ _ _).2.2⟩⟩
  · intro e he
    simp only [handle_request, he]

/-- C1 witness: the response to a concrete ping request carries the request
id and a result. -/
theorem claim_C1_witness :
    (resultResponse (.num 7) (.obj [("pong", .bool true)])).lookup "id" = some (.num 7)
    ∧ ((∃ res, (resultResponse (.num 7) (.obj [("pong", .bool true)])).lookup "result" = some res
          ∧ (resultResponse (.num 7) (.obj [("pong", .bool true)])).lookup "error" = none)
       ∨ (∃ c msg, (resultResponse (.num 7) (.obj [("pong", .bool true)])).lookup "error"
            = some (.obj [("code", .num c), ("message", .str msg)])
          ∧ (resultResponse (.num 7) (.obj [("pong", .bool true)])).lookup "result" = none)) :=
  (claim_C1 nullAdapter "0.1.0" [("method", .str "ping"), ("id", .num 7)]).2.1
    (resultResponse (.num 7) (.obj [("pong", .bool true)])) rfl

/-- Helper: a hashable tool name outside the tool_handlers registry makes
`_handle_tools_call` return the -32601 "Tool not found" response. -/
theorem tools_call_unknown (a : AdapterCalls) (pfs : List (String × JValue))
    (requestId : JValue)
    (hhash : ((pfs.lookup "name").getD .null).isHashable = true)
    (htool : toolHandlers a ((pfs.lookup "name").getD .null) = none) :
    _handle_tools_call a (.obj pfs) requestId
      = .ok (errorResponse requestId (-32601)
             ("Tool not found: " ++ ((pfs.lookup "name").getD .null).pyStr)) := by
  simp only [_handle_tools_call]
  rcases hn : (pfs.lookup "name").getD .null with _ | b | n | s | xs | gs <;>
    rw [hn] at htool hhash
  case arr => exact Bool.noConfusion hhash
  case obj => exact Bool.noConfusion hhash
  all_goals (dsimp only; rw [htool])

/-- Helper: a list-valued tool name makes the membership test raise
`TypeError`, escaping `_handle_tools_call`. -/
theorem tools_call_unhashable_list (a : AdapterCalls) (pfs : List (String × JValue))
    (requestId : JValue) (xs : List JValue)
    (hn : (pfs.lookup "name").getD .null = .arr xs) :
    _handle_tools_call a (.obj pfs) requestId
      = .error ("unhashable type: \x27list\x27") := by
  simp only [_handle_tools_call, hn]

/-- Helper: a dict-valued tool name makes the membership test raise
`TypeError`, escaping `_handle_tools_call`. -/
theorem tools_call_unhashable_dict (a : AdapterCalls) (pfs : List (String × JValue))
    (requestId : JValue) (gs : List (String × JValue))
    (hn : (pfs.lookup "name").getD .null = .obj gs) :
    _handle_tools_call a (.obj pfs) requestId
      = .error ("unhashable type: \x27dict\x27") := by
  simp only [_handle_tools_call, hn]

/-- C2 counterexample: a `tools/call` whose `params.name` is the list `[]` —
a value that is not a registered tool — is answered with error code -32603
("Internal error: unhashable type: ..."), not -32601: the membership test
`tool_name not in tool_handlers` hashes the name and raises `TypeError`
outside the method's own `try`. -/
theorem claim_C2_counterexample :
    handle_request nullAdapter "0.1.0"
      [("method", .str "tools/call"), ("params", .obj [("name", .arr [])]), ("id", .num 5)]
      = some (errorResponse (.num 5) (-32603)
          ("Internal error: " ++ "unhashable type: \x27list\x27"))
    ∧ (errorResponse (.num 5) (-32603)
         ("Internal error: " ++ "unhashable type: \x27list\x27")).lookup "error"
      = some (.obj [("code", .num (-32603)),
          ("message", .str ("Internal error: " ++ "unhashable type: \x27list\x27"))])
    ∧ ((-32603 : Int) = -32601 → False) :=
  ⟨rfl, rfl, fun h => absurd h (by decide)⟩

/-- C2 amended: every request whose method is outside the fixed set
(initialize, notifications/initialized, tools/list, tools/call, ping) gets a
-32601 error reading "Method not found: [method]" and no result; every
`tools/call` whose `params.name` is absent or is a hashable value outside
the tool_handlers registry gets a -32601 "Tool not found" error and never a
result; and a list- or dict-valued `params.name` raises `TypeError`
(unhashable key), which is converted to a -32603 "Internal error" — in
every case an error and never a result. -/
theorem claim_C2_amended (a : AdapterCalls) (v : String) :
    (∀ (data : List (String × JValue)) (m : JValue),
        (data.lookup "method").getD .null = m →
        m ≠ .str "initialize" → m ≠ .str "notifications/initialized" →
        m ≠ .str "tools/list" → m ≠ .str "tools/call" → m ≠ .str "ping" →
        handle_request a v data
          = some (errorResponse ((data.lookup "id").getD .null) (-32601)
                  ("Method not found: " ++ m.pyStr))
        ∧ (errorResponse ((data.lookup "id").getD .null) (-32601)
              ("Method not found: " ++ m.pyStr)).lookup "result" = none)
    ∧ (∀ (data pfs : List (String × JValue)),
        (data.lookup "method").getD .null = .str "tools/call" →
        (data.lookup "params").getD (.obj []) = .obj pfs →
        ((pfs.lookup "name").getD .null).isHashable = true →
        toolHandlers a ((pfs.lookup "name").getD .null) = none →
        handle_request a v data
          = some (errorResponse ((data.lookup "id").getD .null) (-32601)
                  ("Tool not found: " ++ ((pfs.lookup "name").getD .null).pyStr))
        ∧ (errorResponse ((data.lookup "id").getD .null) (-32601)
              ("Tool not found: " ++ ((pfs.lookup "name").getD .null).pyStr)).lookup "result"
            = none)
    ∧ (∀ (data pfs : List (String × JValue)) (xs : List JValue),
        (data.lookup "method").getD .null = .str "tools/call" →
        (data.lookup "params").getD (.obj []) = .obj pfs →
        (pfs.lookup "name").getD .null = .arr xs →
        handle_request a v data
          = some (errorResponse ((data.lookup "id").getD .null) (-32603)
                  ("Internal error: " ++ "unhashable type: \x27list\x27"))
        ∧ (errorResponse ((data.lookup "id").getD .null) (-32603)
              ("Internal error: " ++ "unhashable type: \x27list\x27")).lookup "result"
            = none)
    ∧ (∀ (data pfs gs : List (String × JValue)),
        (data.lookup "method").getD .null = .str "tools/call" →
        (data.lookup "params").getD (.obj []) = .obj pfs →
        (pfs.lookup "name").getD .null = .obj gs →
        handle_request a v data
          = some (errorResponse ((data.lookup "id").getD .null) (-32603)
                  ("Internal error: " ++ "unhashable type: \x27dict\x27"))
        ∧ (errorResponse ((data.lookup "id").getD .null) (-32603)
              ("Internal error: " ++ "unhashable type: \x27dict\x27")).lookup "result"
            = none) := by
  refine ⟨?_, ?_, ?_, ?_⟩
  · intro data m hm h1 h2 h3 h4 h5
    refine ⟨?_, rfl⟩
    simp only [handle_request, hm]
    rw [dispatch_unknown_method a v _ _ m h1 h2 h3 h4 h5]
  · intro data pfs hm hp hhash htool
    refine ⟨?_, rfl⟩
    have hc := tools_call_unknown a pfs ((data.lookup "id").getD .null) hhash htool
    simp only [handle_request, hm, hp]
    have hd : dispatch a v (.str "tools/call") (.obj pfs) ((data.lookup "id").getD .null)
        = .ok (some (errorResponse ((data.lookup "id").getD .null) (-32601)
               ("Tool not found: " ++ ((pfs.lookup "name").getD .null).pyStr))) := by
      unfold dispatch
      rw [hc]
      rfl
    rw [hd]
  · intro data pfs xs hm hp hn
    refine ⟨?_, rfl⟩
    have hc := tools_call_unhashable_list a pfs ((data.lookup "id").getD .null) xs hn
    simp only [handle_request, hm, hp]
    have hd : dispatch a v (.str "tools/call") (.obj pfs) ((data.lookup "id").getD .null)
        = .error ("unhashable type: \x27list\x27") := by
      unfold dispatch
      rw [hc]
      rfl
    rw [hd]
  · intro data pfs gs hm hp hn
    refine ⟨?_, rfl⟩
    have hc := tools_call_unhashable_dict a pfs ((data.lookup "id").getD .null) gs hn
    simp only [handle_request, hm, hp]
    have hd : dispatch a v (.str "tools/call") (.obj pfs) ((data.lookup "id").getD .null)
        = .error ("unhashable type: \x27dict\x27") := by
      unfold dispatch
      rw [hc]
      rfl
    rw [hd]

/-- C2 witness: a concrete unknown method and a concrete unknown hashable
tool name each draw the -32601 error with no result, while concrete list-
and dict-valued tool names each draw the -32603 internal error with no
result. -/
theorem claim_C2_witness :
    (handle_request nullAdapter "0.1.0" [("method", .str "resources/list"), ("id", .num 3)]
      = some (errorResponse (.num 3) (-32601) ("Method not found: " ++ "resources/list"))
      ∧ (errorResponse (.num 3) (-32601)
           ("Method not found: " ++ "resources/list")).lookup "result" = none)
    ∧ (handle_request nullAdapter "0.1.0"
         [("method", .str "tools/call"),
          ("params", .obj [("name", .str "delete_everything")]), ("id", .num 4)]
      = some (errorResponse (.num 4) (-32601) ("Tool not found: " ++ "delete_everything"))
      ∧ (errorResponse (.num 4) (-32601)
           ("Tool not found: " ++ "delete_everything")).lookup "result" = none)
    ∧ (handle_request nullAdapter "0.1.0"
         [("method", .str "tools/call"), ("params", .obj [("name", .arr [])]), ("id", .num 6)]
      = some (errorResponse (.num 6) (-32603)
           ("Internal error: " ++ "unhashable type: \x27list\x27"))
      ∧ (errorResponse (.num 6) (-32603)
           ("Internal error: " ++ "unhashable type: \x27list\x27")).lookup "result" = none)
    ∧ (handle_request nullAdapter "0.1.0"
         [("method", .str "tools/call"), ("params", .obj [("name", .obj [])]), ("id", .num 8)]
      = some (errorResponse (.num 8) (-32603)
           ("Internal error: " ++ "unhashable type: \x27dict\x27"))
      ∧ (errorResponse (.num 8) (-32603)
           ("Internal error: " ++ "unhashable type: \x27dict\x27")).lookup "result" = none) :=
  ⟨(claim_C2_amended nullAdapter "0.1.0").1 [("method", .str "resources/list"), ("id", .num 3)]
      (.str "resources/list") rfl
      (fun h => by injection h with hs; exact absurd hs (by decide))
      (fun h => by injection h with hs; exact absurd hs (by decide))
      (fun h => by injection h with hs; exact absurd hs (by decide))
      (fun h => by injection h with hs; exact absurd hs (by decide))
      (fun h => by injection h with hs; exact absurd hs (by decide)),
   (claim_C2_amended nullAdapter "0.1.0").2.1
      [("method", .str "tools/call"),
       ("params", .obj [("name", .str "delete_everything")]), ("id", .num 4)]
      [("name", .str "delete_everything")] rfl rfl rfl rfl,
   (claim_C2_amended nullAdapter "0.1.0").2.2.1
      [("method", .str "tools/call"), ("params", .obj [("name", .arr [])]), ("id", .num 6)]
      [("name", .arr [])] [] rfl rfl rfl,
   (claim_C2_amended nullAdapter "0.1.0").2.2.2
      [("method", .str "tools/call"), ("params", .obj [("name", .obj [])]), ("id", .num 8)]
      [("name", .obj [])] [] rfl rfl rfl⟩

/-- C4 counterexample: an execute call supplying only the newer prefixed id
(and inputs) is rejected as a local validation failure — no remote action is
resolved or executed, contradicting the claim that both wire encodings are
accepted. -/
theorem claim_C4_counterexample :
    MCPAdapter.execute idleBackend
      (.obj [("id", .str "op_2c33b4d9e8304b27bbf4bc0a941a32a0"), ("inputs", .obj [])])
    = .ok (invalidExecutionTypePayload, []) :=
  rfl

/-- C4 amended: the execute tool accepts only the legacy typed pair
(execution_type in (operation, workflow) plus a non-empty uuid), resolving
and executing the corresponding remote action; a call supplying only the
prefixed id form, like one supplying neither encoding, is rejected as a
validation failure (invalid execution_type) without any remote call. -/
theorem claim_C4_amended (jentic : JenticBackend) (u : String) (hu : u ≠ "")
    (ifs : List (String × JValue)) (s : String) :
    Except.map Prod.snd (MCPAdapter.execute jentic
        (.obj [("execution_type", .str "operation"), ("uuid", .str u), ("inputs", .obj ifs)]))
      = .ok [RemoteCall.execOperation (.str u) (.obj ifs)]
    ∧ Except.map Prod.snd (MCPAdapter.execute jentic
        (.obj [("execution_type", .str "workflow"), ("uuid", .str u), ("inputs", .obj ifs)]))
      = .ok [RemoteCall.execWorkflow (.str u) (.obj ifs)]
    ∧ MCPAdapter.execute jentic (.obj [("id", .str s), ("inputs", .obj ifs)])
      = .ok (invalidExecutionTypePayload, [])
    ∧ MCPAdapter.execute jentic (.obj [("inputs", .obj ifs)])
      = .ok (invalidExecutionTypePayload, []) := by
  have hu2 : (u != "") = true := by simp [hu]
  refine ⟨?_, ?_, rfl, rfl⟩
  · simp [MCPAdapter.execute, List.lookup, isKnownExecutionType, JValue.isTruthy,
      JValue.isDict, hu2]
    rcases jentic.execute_operation (.str u) (.obj ifs) with e | r <;> simp [Except.map]
  · simp [MCPAdapter.execute, List.lookup, isKnownExecutionType, JValue.isTruthy,
      JValue.isDict, hu2]
    rcases jentic.execute_workflow (.str u) (.obj ifs) with e | r
    · simp [Except.map]
    · rcases r with ⟨s2, o2, e2⟩
      cases s2 <;> simp [Except.map]

/-- C4 witness: concrete calls in each of the three regimes. -/
theorem claim_C4_witness :
    Except.map Prod.snd (MCPAdapter.execute idleBackend
        (.obj [("execution_type", .str "operation"), ("uuid", .str "u-1"), ("inputs", .obj [])]))
      = .ok [RemoteCall.execOperation (.str "u-1") (.obj [])]
    ∧ Except.map Prod.snd (MCPAdapter.execute idleBackend
        (.obj [("execution_type", .str "workflow"), ("uuid", .str "u-1"), ("inputs", .obj [])]))
      = .ok [RemoteCall.execWorkflow (.str "u-1") (.obj [])]
    ∧ MCPAdapter.execute idleBackend
        (.obj [("id", .str "wf_9a1"), ("inputs", .obj [])])
      = .ok (invalidExecutionTypePayload, []) :=
  ⟨(claim_C4_amended idleBackend "u-1" (by decide) [] "wf_9a1").1,
   (claim_C4_amended idleBackend "u-1" (by decide) [] "wf_9a1").2.1,
   (claim_C4_amended idleBackend "u-1" (by decide) [] "wf_9a1").2.2.1⟩

/-- A backend whose operation execution reports a logical failure inside the
returned payload (success false), as the remote runner does. -/
def opLogicalFailureBackend : JenticBackend where
  execute_operation := fun _ _ =>
    .ok (.obj [("success", .bool false), ("error", .str "step failed")])
  execute_workflow := fun _ _ => .ok (WorkflowResult.mk true .null none)

/-- A backend whose workflow execution reports success false and whose
operation execution raises. -/
def wfLogicalFailureBackend : JenticBackend where
  execute_operation := fun _ _ => .error "Connection timed out"
  execute_workflow := fun _ _ =>
    .ok (WorkflowResult.mk false .null (some "step 2 failed"))

/-- C5 counterexample: for execution_type operation a backend-reported
logical failure (the returned dict carries success false) is wrapped into a
payload with success true and no suggested_next_actions — the claim fails
for the operation execution type. -/
theorem claim_C5_counterexample :
    MCPAdapter.execute opLogicalFailureBackend
      (.obj [("execution_type", .str "operation"), ("uuid", .str "u1"), ("inputs", .obj [])])
    = .ok (.obj [("result", .obj [("success", .bool true),
          ("output", .obj [("success", .bool false), ("error", .str "step failed")])])],
        [RemoteCall.execOperation (.str "u1") (.obj [])])
    ∧ payloadField (.obj [("result", .obj [("success", .bool true),
          ("output", .obj [("success", .bool false), ("error", .str "step failed")])])]) "success"
      = some (.bool true)
    ∧ payloadField (.obj [("result", .obj [("success", .bool true),
          ("output", .obj [("success", .bool false), ("error", .str "step failed")])])])
        "suggested_next_actions"
      = none := ⟨rfl, rfl, rfl⟩

/-- C5 amended: a backend-reported logical failure is surfaced as a
success-false payload with recovery hints only for the workflow execution
type; an exception escaping the remote call is surfaced that way (message
"Error during execution: ...") for both types; for the operation type a
backend-reported failure is returned inside a success-true wrapper.  The
recovery hint names the submit_feedback tool. -/
theorem claim_C5_amended (jentic : JenticBackend) (u : String) (hu : u ≠ "")
    (ifs : List (String × JValue)) (wr : WorkflowResult) (e : String) :
    (jentic.execute_workflow (.str u) (.obj ifs) = .ok wr → wr.success = false →
      MCPAdapter.execute jentic
          (.obj [("execution_type", .str "workflow"), ("uuid", .str u), ("inputs", .obj ifs)])
        = .ok (workflowFailurePayload wr, [RemoteCall.execWorkflow (.str u) (.obj ifs)]))
    ∧ (jentic.execute_operation (.str u) (.obj ifs) = .error e →
      MCPAdapter.execute jentic
          (.obj [("execution_type", .str "operation"), ("uuid", .str u), ("inputs", .obj ifs)])
        = .ok (executeExceptionPayload e, [RemoteCall.execOperation (.str u) (.obj ifs)]))
    ∧ (jentic.execute_workflow (.str u) (.obj ifs) = .error e →
      MCPAdapter.execute jentic
          (.obj [("execution_type", .str "workflow"), ("uuid", .str u), ("inputs", .obj ifs)])
        = .ok (executeExceptionPayload e, [RemoteCall.execWorkflow (.str u) (.obj ifs)]))
    ∧ (∀ out, jentic.execute_operation (.str u) (.obj ifs) = .ok out →
      MCPAdapter.execute jentic
          (.obj [("execution_type", .str "operation"), ("uuid", .str u), ("inputs", .obj ifs)])
        = .ok (.obj [("result", .obj [("success", .bool true), ("output", out)])],
               [RemoteCall.execOperation (.str u) (.obj ifs)]))
    ∧ payloadField (workflowFailurePayload wr) "success" = some (.bool false)
    ∧ payloadField (workflowFailurePayload wr) "suggested_next_actions"
        = some get_execute_tool_failure_suggested_next_actions
    ∧ payloadField (executeExceptionPayload e) "success" = some (.bool false)
    ∧ payloadField (executeExceptionPayload e) "message"
        = some (.str ("Error during execution: " ++ e))
    ∧ (∃ rest, "Error during execution: " ++ e = "Error during execution" ++ rest)
    ∧ payloadField (executeExceptionPayload e) "suggested_next_actions"
        = some get_execute_tool_failure_suggested_next_actions
    ∧ (match get_execute_tool_failure_suggested_next_actions with
       | .arr (hint :: _) => hint.lookup "tool_name"
       | _ => none) = some (.str "submit_feedback") := by
  have hu2 : (u != "") = true := by simp [hu]
  refine ⟨?_, ?_, ?_, ?_, rfl, rfl, rfl, rfl,
    ⟨": " ++ e, by rw [← String.append_assoc]; rfl⟩, rfl, rfl⟩
  · intro hw hws
    simp [MCPAdapter.execute, List.lookup, isKnownExecutionType, JValue.isTruthy,
      JValue.isDict, hu2, hw, hws]
  · intro ho
    simp [MCPAdapter.execute, List.lookup, isKnownExecutionType, JValue.isTruthy,
      JValue.isDict, hu2, ho]
  · intro hw
    simp [MCPAdapter.execute, List.lookup, isKnownExecutionType, JValue.isTruthy,
      JValue.isDict, hu2, hw]
  · intro out ho
    simp [MCPAdapter.execute, List.lookup, isKnownExecutionType, JValue.isTruthy,
      JValue.isDict, hu2, ho]

/-- C5 witness: a concrete workflow logical failure and a concrete operation
exception, each drawing the failure payload with recovery hints. -/
theorem claim_C5_witness :
    MCPAdapter.execute wfLogicalFailureBackend
      (.obj [("execution_type", .str "workflow"), ("uuid", .str "u-1"), ("inputs", .obj [])])
      = .ok (workflowFailurePayload (WorkflowResult.mk false .null (some "step 2 failed")),
             [RemoteCall.execWorkflow (.str "u-1") (.obj [])])
    ∧ MCPAdapter.execute wfLogicalFailureBackend
      (.obj [("execution_type", .str "operation"), ("uuid", .str "u-1"), ("inputs", .obj [])])
      = .ok (executeExceptionPayload "Connection timed out",
             [RemoteCall.execOperation (.str "u-1") (.obj [])])
    ∧ payloadField (executeExceptionPayload "Connection timed out") "message"
      = some (.str ("Error during execution: " ++ "Connection timed out")) :=
  ⟨(claim_C5_amended wfLogicalFailureBackend "u-1" (by decide) []
      (WorkflowResult.mk false .null (some "step 2 failed")) "Connection timed out").1 rfl rfl,
   (claim_C5_amended wfLogicalFailureBackend "u-1" (by decide) []
      (WorkflowResult.mk false .null (some "step 2 failed")) "Connection timed out").2.1 rfl,
   (claim_C5_amended wfLogicalFailureBackend "u-1" (by decide) []
      (WorkflowResult.mk false .null (some "step 2 failed")) "Connection timed out").2.2.2.2.2.2.2.1⟩

/-- C6 counterexample: with JENTIC_UUID set in the environment, a
caller-supplied jentic_uuid value "t1" is overwritten by the environment
value in the posted body — the caller's value is not sent unchanged. -/
theorem claim_C6_counterexample :
    MCPAdapter.submit_feedback (FeedbackEnv.mk (some "env-uuid") none)
      (fun _ _ => .response 200 "ok")
      (.obj [("feedback_data", .obj [("jentic_uuid", .str "t1"), ("error", .str "x")])])
    = .ok (feedbackSuccessPayload,
        [RemoteCall.httpPost defaultFeedbackUrl
           (.obj [("jentic_uuid", .str "env-uuid"), ("error", .str "x")])])
    ∧ (JValue.obj [("jentic_uuid", .str "env-uuid"), ("error", .str "x")]).lookup "jentic_uuid"
      = some (.str "env-uuid")
    ∧ ((JValue.obj [("jentic_uuid", .str "env-uuid"), ("error", .str "x")]).lookup "jentic_uuid"
      = some (.str "t1") → False) :=
  ⟨rfl, rfl,
   fun h => JValue.noConfusion (Option.some.inj h) (fun hs => absurd hs (by decide))⟩

/-- C6 amended: the feedback is posted exactly once with feedback_data as
the JSON body, where an environment-supplied JENTIC_UUID is written into
feedback_data, overwriting any caller-supplied jentic_uuid; the
caller-supplied value is sent unchanged only when the environment variable
is unset (or empty). -/
theorem claim_C6_amended (env : FeedbackEnv) (post : String → JValue → PostOutcome)
    (fd : List (String × JValue)) (hfd : fd ≠ []) :
    (env.jentic_uuid = none →
      Except.map Prod.snd
          (MCPAdapter.submit_feedback env post (.obj [("feedback_data", .obj fd)]))
        = .ok [RemoteCall.httpPost (env.feedback_endpoint_url.getD defaultFeedbackUrl)
                 (.obj fd)])
    ∧ (∀ u, env.jentic_uuid = some u → u ≠ "" →
      Except.map Prod.snd
          (MCPAdapter.submit_feedback env post (.obj [("feedback_data", .obj fd)]))
        = .ok [RemoteCall.httpPost (env.feedback_endpoint_url.getD defaultFeedbackUrl)
                 (.obj (setPair fd "jentic_uuid" (.str u)))]) := by
  rcases fd with _ | ⟨p0, fd0⟩
  · exact absurd rfl hfd
  constructor
  · intro henv
    simp [MCPAdapter.submit_feedback, List.lookup, JValue.isTruthy, JValue.isDict,
      JValue.setKey, henv]
    rcases post (env.feedback_endpoint_url.getD defaultFeedbackUrl) (.obj (p0 :: fd0))
        with ⟨st, bd⟩ | e | e
    · dsimp only
      split <;> rfl
    · rfl
    · rfl
  · intro u henv hu
    have hu2 : (u != "") = true := by simp [hu]
    simp [MCPAdapter.submit_feedback, List.lookup, JValue.isTruthy, JValue.isDict,
      JValue.setKey, henv, hu2]
    rcases post (env.feedback_endpoint_url.getD defaultFeedbackUrl)
        (.obj (setPair (p0 :: fd0) "jentic_uuid" (.str u))) with ⟨st, bd⟩ | e | e
    · dsimp only
      split <;> rfl
    · rfl
    · rfl

/-- C6 witness: the same feedback_data is posted verbatim without the
environment variable and with its jentic_uuid replaced when the variable is
set. -/
theorem claim_C6_witness :
    Except.map Prod.snd (MCPAdapter.submit_feedback (FeedbackEnv.mk none none)
        (fun _ _ => .response 200 "ok")
        (.obj [("feedback_data", .obj [("jentic_uuid", .str "t1"), ("error", .str "x")])]))
      = .ok [RemoteCall.httpPost defaultFeedbackUrl
               (.obj [("jentic_uuid", .str "t1"), ("error", .str "x")])]
    ∧ Except.map Prod.snd (MCPAdapter.submit_feedback (FeedbackEnv.mk (some "env-uuid") none)
        (fun _ _ => .response 200 "ok")
        (.obj [("feedback_data", .obj [("jentic_uuid", .str "t1"), ("error", .str "x")])]))
      = .ok [RemoteCall.httpPost defaultFeedbackUrl
               (.obj [("jentic_uuid", .str "env-uuid"), ("error", .str "x")])] :=
  ⟨(claim_C6_amended (FeedbackEnv.mk none none) (fun _ _ => .response 200 "ok")
      [("jentic_uuid", .str "t1"), ("error", .str "x")] (List.cons_ne_nil _ _)).1 rfl,
   (claim_C6_amended (FeedbackEnv.mk (some "env-uuid") none) (fun _ _ => .response 200 "ok")
      [("jentic_uuid", .str "t1"), ("error", .str "x")] (List.cons_ne_nil _ _)).2
     "env-uuid" rfl (by decide)⟩

/-- C7: local argument validation never reaches the network: a
missing/invalid execution_type, a missing (falsy) uuid, or a non-mapping
inputs makes execute return a success-false result payload with no remote
call and no exception, and a missing, empty or non-mapping feedback_data
makes submit_feedback return the success-false "Missing or invalid
..." payload with no POST and no exception. -/
theorem claim_C7 (jentic : JenticBackend) (env : FeedbackEnv)
    (post : String → JValue → PostOutcome) (pfs qfs : List (String × JValue)) :
    ((((pfs.lookup "execution_type").getD .null).isTruthy = false
       ∨ isKnownExecutionType ((pfs.lookup "execution_type").getD .null) = false) →
      MCPAdapter.execute jentic (.obj pfs) = .ok (invalidExecutionTypePayload, []))
    ∧ (((pfs.lookup "execution_type").getD .null).isTruthy = true →
       isKnownExecutionType ((pfs.lookup "execution_type").getD .null) = true →
       ((pfs.lookup "uuid").getD .null).isTruthy = false →
      MCPAdapter.execute jentic (.obj pfs) = .ok (missingUuidPayload, []))
    ∧ (((pfs.lookup "execution_type").getD .null).isTruthy = true →
       isKnownExecutionType ((pfs.lookup "execution_type").getD .null) = true →
       ((pfs.lookup "uuid").getD .null).isTruthy = true →
       ((pfs.lookup "inputs").getD (.obj [])).isDict = false →
      MCPAdapter.execute jentic (.obj pfs) = .ok (invalidInputsPayload, []))
    ∧ ((((qfs.lookup "feedback_data").getD .null).isTruthy = false
        ∨ ((qfs.lookup "feedback_data").getD .null).isDict = false) →
      MCPAdapter.submit_feedback env post (.obj qfs) = .ok (missingFeedbackDataPayload, []))
    ∧ payloadField invalidExecutionTypePayload "success" = some (.bool false)
    ∧ payloadField missingUuidPayload "success" = some (.bool false)
    ∧ payloadField invalidInputsPayload "success" = some (.bool false)
    ∧ payloadField missingFeedbackDataPayload "success" = some (.bool false)
    ∧ payloadField missingFeedbackDataPayload "message"
        = some (.str "Missing or invalid 'feedback_data' parameter.")
    ∧ (∃ rest, ("Missing or invalid 'feedback_data' parameter." : String)
        = "Missing or invalid" ++ rest) := by
  refine ⟨?_, ?_, ?_, ?_, rfl, rfl, rfl, rfl, rfl, ⟨" 'feedback_data' parameter.", rfl⟩⟩
  · rintro (h | h) <;>
      simp [MCPAdapter.execute, h]
  · intro h1 h2 h3
    simp [MCPAdapter.execute, h1, h2, h3]
  · intro h1 h2 h3 h4
    simp [MCPAdapter.execute, h1, h2, h3, h4]
  · rintro (h | h) <;>
      simp [MCPAdapter.submit_feedback, h]

/-- C7 witness: four concrete malformed calls, none of which reaches the
network. -/
theorem claim_C7_witness :
    MCPAdapter.execute idleBackend (.obj []) = .ok (invalidExecutionTypePayload, [])
    ∧ MCPAdapter.execute idleBackend (.obj [("execution_type", .str "operation")])
      = .ok (missingUuidPayload, [])
    ∧ MCPAdapter.execute idleBackend
        (.obj [("execution_type", .str "workflow"), ("uuid", .str "u"),
               ("inputs", .str "not-a-mapping")])
      = .ok (invalidInputsPayload, [])
    ∧ MCPAdapter.submit_feedback (FeedbackEnv.mk none none)
        (fun _ _ => .response 200 "ok") (.obj [("feedback_data", .obj [])])
      = .ok (missingFeedbackDataPayload, []) :=
  ⟨(claim_C7 idleBackend (FeedbackEnv.mk none none) (fun _ _ => .response 200 "ok")
      [] []).1 (Or.inl rfl),
   (claim_C7 idleBackend (FeedbackEnv.mk none none) (fun _ _ => .response 200 "ok")
      [("execution_type", .str "operation")] []).2.1 rfl rfl rfl,
   (claim_C7 idleBackend (FeedbackEnv.mk none none) (fun _ _ => .response 200 "ok")
      [("execution_type", .str "workflow"), ("uuid", .str "u"),
       ("inputs", .str "not-a-mapping")] []).2.2.1 rfl rfl rfl rfl,
   (claim_C7 idleBackend (FeedbackEnv.mk none none) (fun _ _ => .response 200 "ok")
      [] [("feedback_data", .obj [])]).2.2.2.1 (Or.inl rfl)⟩

/-- Helper: two strings that differ at a character position stay different
under arbitrary right extensions. -/
theorem append_ne_of_ne_at (p q : String) (i : Nat)
    (hp : i < p.data.length) (hq : i < q.data.length)
    (hne : p.data[i]? ≠ q.data[i]?) (x y : String) : p ++ x ≠ q ++ y := by
  intro h
  have hd := congrArg String.data h
  rw [String.data_append, String.data_append] at hd
  have e1 : (p.data ++ x.data)[i]? = (q.data ++ y.data)[i]? := by rw [hd]
  rw [List.getElem?_append_left hp, List.getElem?_append_left hq] at e1
  exact hne e1

/-- C8: submit_feedback distinguishes its three failure classes with three
distinct message templates — a request/connectivity failure, a non-2xx HTTP
status (message carrying the status code and the response body text), and
any other unexpected failure — and no two classes can ever produce the same
message. -/
theorem claim_C8 (env : FeedbackEnv) (fd0 : String × JValue)
    (fdr : List (String × JValue)) (m b : String) (s : Nat)
    (hs : (200 ≤ s && s ≤ 299) = false) :
    Except.map Prod.fst (MCPAdapter.submit_feedback env (fun _ _ => .requestError m)
        (.obj [("feedback_data", .obj (fd0 :: fdr))]))
      = .ok (feedbackFailurePayload
          ("Failed to submit feedback due to network/request issue: " ++ m))
    ∧ Except.map Prod.fst (MCPAdapter.submit_feedback env (fun _ _ => .response s b)
        (.obj [("feedback_data", .obj (fd0 :: fdr))]))
      = .ok (feedbackFailurePayload
          ("Failed to submit feedback, server returned error: " ++ toString s ++ " - " ++ b))
    ∧ Except.map Prod.fst (MCPAdapter.submit_feedback env (fun _ _ => .otherError m)
        (.obj [("feedback_data", .obj (fd0 :: fdr))]))
      = .ok (feedbackFailurePayload
          ("An unexpected error occurred while submitting feedback: " ++ m))
    ∧ ("Failed to submit feedback, server returned error: " ++ toString s ++ " - " ++ b
        = "Failed to submit feedback, server returned error: "
          ++ (toString s ++ (" - " ++ b)))
    ∧ (∀ x y : String, "Failed to submit feedback due to network/request issue: " ++ x
        ≠ "Failed to submit feedback, server returned error: " ++ y)
    ∧ (∀ x y : String, "Failed to submit feedback due to network/request issue: " ++ x
        ≠ "An unexpected error occurred while submitting feedback: " ++ y)
    ∧ (∀ x y : String, "Failed to submit feedback, server returned error: " ++ x
        ≠ "An unexpected error occurred while submitting feedback: " ++ y) := by
  refine ⟨?_, ?_, ?_, by rw [String.append_assoc, String.append_assoc],
    fun x y => append_ne_of_ne_at _ _ 25 (by decide) (by decide) (by decide) x y,
    fun x y => append_ne_of_ne_at _ _ 0 (by decide) (by decide) (by decide) x y,
    fun x y => append_ne_of_ne_at _ _ 0 (by decide) (by decide) (by decide) x y⟩
  · rcases env.jentic_uuid with _ | u
    · rfl
    · by_cases hu : (u != "") = true <;>
        simp [MCPAdapter.submit_feedback, List.lookup, JValue.isTruthy, JValue.isDict,
          JValue.setKey, hu, Except.map]
  · rcases henv : env.jentic_uuid with _ | u
    · simp [MCPAdapter.submit_feedback, List.lookup, JValue.isTruthy, JValue.isDict,
        JValue.setKey, henv, hs, Except.map]
    · by_cases hu : (u != "") = true <;>
        simp [MCPAdapter.submit_feedback, List.lookup, JValue.isTruthy, JValue.isDict,
          JValue.setKey, henv, hu, hs, Except.map]
  · rcases env.jentic_uuid with _ | u
    · rfl
    · by_cases hu : (u != "") = true <;>
        simp [MCPAdapter.submit_feedback, List.lookup, JValue.isTruthy, JValue.isDict,
          JValue.setKey, hu, Except.map]

/-- C8 witness: HTTP 500 with body "Internal Server Error Text" yields a
message containing both "500" and the body text, and the other two classes
yield their own templates. -/
theorem claim_C8_witness :
    Except.map Prod.fst (MCPAdapter.submit_feedback (FeedbackEnv.mk none none)
        (fun _ _ => .response 500 "Internal Server Error Text")
        (.obj [("feedback_data", .obj [("uuid", .str "t1"),
               ("error", .str "Test error for HTTP failure")])]))
      = .ok (feedbackFailurePayload
          ("Failed to submit feedback, server returned error: "
            ++ toString 500 ++ " - " ++ "Internal Server Error Text"))
    ∧ ("Failed to submit feedback, server returned error: "
        ++ toString 500 ++ " - " ++ "Internal Server Error Text"
        = "Failed to submit feedback, server returned error: 500 - Internal Server Error Text")
    ∧ Except.map Prod.fst (MCPAdapter.submit_feedback (FeedbackEnv.mk none none)
        (fun _ _ => .requestError "Simulated network error")
        (.obj [("feedback_data", .obj [("uuid", .str "t1")])]))
      = .ok (feedbackFailurePayload
          ("Failed to submit feedback due to network/request issue: "
            ++ "Simulated network error"))
    ∧ Except.map Prod.fst (MCPAdapter.submit_feedback (FeedbackEnv.mk none none)
        (fun _ _ => .otherError "Unexpected internal runtime issue")
        (.obj [("feedback_data", .obj [("uuid", .str "t1")])]))
      = .ok (feedbackFailurePayload
          ("An unexpected error occurred while submitting feedback: "
            ++ "Unexpected internal runtime issue")) :=
  ⟨(claim_C8 (FeedbackEnv.mk none none) ("uuid", .str "t1")
      [("error", .str "Test error for HTTP failure")] "m" "Internal Server Error Text" 500
      (by decide)).2.1,
   rfl,
   (claim_C8 (FeedbackEnv.mk none none) ("uuid", .str "t1") [] "Simulated network error"
      "b" 500 (by decide)).1,
   (claim_C8 (FeedbackEnv.mk none none) ("uuid", .str "t1") []
      "Unexpected internal runtime issue" "b" 500 (by decide)).2.2.1⟩
